import Mathlib

/-!
Formal model of the ESP32 MicroPython hand-gesture direction pipeline
(`mpu6050.py` and `motion_control.py`): raw register decoding, bias
calibration, sample aggregation, exponential low-pass filtering,
complementary-filter orientation update, direction classification and
display debounce.  Exact rational arithmetic (`ℚ`) embeds the float
values of the scripts for the decidable fragments; the orientation estimator,
which uses `atan2`, `sqrt` and `π`, is modelled over `ℝ`.
-/

/-! ## Direction classifier (`motion_control.py`, lines 19-53) -/

def LEFT_THRESHOLD : ℚ := -15

def RIGHT_THRESHOLD : ℚ := 15

def TURN_THRESHOLD : ℚ := 20

def FORWARD_THRESHOLD : ℚ := 15

def BACKWARD_THRESHOLD : ℚ := -15

def DEAD_ZONE : ℚ := 10

/-- Python `get_direction(angle_x, angle_y, angle_z)`: sequential reassignment of
`direction`, starting from `"STOP"`, with the Y-axis, X-axis and Z-axis
rules applied in source order (later rules override earlier ones). -/
def get_direction (angle_x angle_y angle_z : ℚ) : String :=
  let direction := "STOP"
  let direction :=
    if angle_y > DEAD_ZONE ∧ angle_y > FORWARD_THRESHOLD then "FORWARD"
    else if angle_y < -DEAD_ZONE ∧ angle_y < BACKWARD_THRESHOLD then "BACKWARD"
    else direction
  let direction :=
    if angle_x < -DEAD_ZONE ∧ angle_x < LEFT_THRESHOLD then "LEFT"
    else if angle_x > DEAD_ZONE ∧ angle_x > RIGHT_THRESHOLD then "RIGHT"
    else direction
  let direction :=
    if abs angle_z > DEAD_ZONE ∧ abs angle_z > TURN_THRESHOLD then
      (if angle_z > 0 then "ROTATE_RIGHT" else "ROTATE_LEFT")
    else direction
  direction

/-! ## Display debounce (`motion_control.py`, lines 59-61 and 101-109) -/

/-- The debounce locals of the loop: `prev_direction` and `direction_count`. -/
structure DebounceState where
  prev_direction : String
  direction_count : Nat
  deriving DecidableEq, Repr

/-- One pass of lines 102-106: on a match the counter is incremented,
otherwise it is reset to 0 and `prev_direction` is replaced. -/
def debounce_step (st : DebounceState) (direction : String) : DebounceState :=
  if direction = st.prev_direction then
    { st with direction_count := st.direction_count + 1 }
  else
    { prev_direction := direction, direction_count := 0 }

/-- Line 109: the label is printed this cycle iff, after the update,
`direction_count >= 2`. -/
def debounce_displays (st : DebounceState) (direction : String) : Bool :=
  decide (2 ≤ (debounce_step st direction).direction_count)

/-- Display decisions along a sequence of classified labels. -/
def debounce_trace (st : DebounceState) : List String → List Bool
  | [] => []
  | d :: ds => debounce_displays st d :: debounce_trace (debounce_step st d) ds

/-- Loop entry state (line 60-61): `prev_direction = "STOP"`, count 0. -/
def initial_state : DebounceState := ⟨"STOP", 0⟩

/-! ## Raw register decoding (`mpu6050.py`, lines 35-40) -/

/-- The combination step of `read_raw_data`: big-endian byte pair to a
signed 16-bit value, `value = (data[0] << 8) | data[1]`, then values
above 32767 are shifted down by 65536. -/
def read_raw_combine (b0 b1 : Nat) : Int :=
  let value : Nat := (b0 <<< 8) ||| b1
  if value > 32767 then (value : Int) - 65536 else (value : Int)

/-- Big-endian twos-complement encoding of a signed 16-bit value as a
byte pair, the inverse direction of `read_raw_combine`. -/
def encode16 (v : Int) : Nat × Nat :=
  let n : Nat := (v % 65536).toNat
  (n / 256, n % 256)

/-! ## Smoothing filter (`motion_control.py`, lines 26-28 and 78-81) -/

/-- Python `low_pass_filter(new_value, prev_value, alpha)`. -/
def low_pass_filter (new_value prev_value alpha : ℚ) : ℚ :=
  alpha * prev_value + (1 - alpha) * new_value


/-! ## MPU6050 data model (`mpu6050.py`) -/

/-- One raw six-axis-plus-temperature sample, each field a signed 16-bit
register value decoded by `read_raw_data`. -/
structure RawSample where
  AcX : Int
  AcY : Int
  AcZ : Int
  GyX : Int
  GyY : Int
  GyZ : Int
  Tmp : Int
  deriving DecidableEq, Repr

def ACCEL_SCALE_MODIFIER_2G : ℚ := 16384

def GYRO_SCALE_MODIFIER_250DEG : ℚ := 131

/-- Fields `self.accel_offsets` and `self.gyro_offsets`. -/
structure CalOffsets where
  ax : ℚ
  ay : ℚ
  az : ℚ
  gx : ℚ
  gy : ℚ
  gz : ℚ
  deriving DecidableEq, Repr

/-- Python division: raises `ZeroDivisionError` on a zero divisor. -/
def pydiv (a b : ℚ) : Except String ℚ :=
  if b = 0 then Except.error "ZeroDivisionError" else Except.ok (a / b)

/-- The running `accel_sum` / `gyro_sum` dictionaries of `calibrate`. -/
structure CalSums where
  ax : ℚ
  ay : ℚ
  az : ℚ
  gx : ℚ
  gy : ℚ
  gz : ℚ
  deriving DecidableEq, Repr

/-- One iteration of the calibration loop (lines 49-66): accumulate the
six raw axes, with gravity (`ACCEL_SCALE_MODIFIER_2G`) removed from the
accelerometer-Z sample before summing. -/
def calibrate_step (s : CalSums) (r : RawSample) : CalSums :=
  { ax := s.ax + (r.AcX : ℚ)
  , ay := s.ay + (r.AcY : ℚ)
  , az := s.az + ((r.AcZ : ℚ) - ACCEL_SCALE_MODIFIER_2G)
  , gx := s.gx + (r.GyX : ℚ)
  , gy := s.gy + (r.GyY : ℚ)
  , gz := s.gz + (r.GyZ : ℚ) }

/-- Model of `calibrate(samples)` over the sequence of raw samples the device
produces: sum all readings, then divide each sum by `samples` (lines
71-77), each division a Python division. -/
def calibrate (rs : List RawSample) : Except String CalOffsets := do
  let sums := rs.foldl calibrate_step ⟨0, 0, 0, 0, 0, 0⟩
  let samples : ℚ := (rs.length : ℚ)
  let ax ← pydiv sums.ax samples
  let ay ← pydiv sums.ay samples
  let az ← pydiv sums.az samples
  let gx ← pydiv sums.gx samples
  let gy ← pydiv sums.gy samples
  let gz ← pydiv sums.gz samples
  pure ⟨ax, ay, az, gx, gy, gz⟩

/-- The dictionary `values` built by `get_values`: offset-corrected raw
accumulators, temperature, and full-scale-scaled accumulators. -/
structure ScaledValues where
  GyX : ℚ
  GyY : ℚ
  GyZ : ℚ
  Tmp : ℚ
  AcX : ℚ
  AcY : ℚ
  AcZ : ℚ
  GyX_deg : ℚ
  GyY_deg : ℚ
  GyZ_deg : ℚ
  AcX_g : ℚ
  AcY_g : ℚ
  AcZ_g : ℚ
  deriving DecidableEq, Repr

/-- One iteration of the `get_values` loop (lines 89-133): subtract the
calibration offsets, convert to g and deg/s by the full-scale modifiers,
convert temperature, and add everything to the accumulators. -/
def get_values_step (os : CalOffsets) (v : ScaledValues) (r : RawSample) : ScaledValues :=
  let accel_x := (r.AcX : ℚ) - os.ax
  let accel_y := (r.AcY : ℚ) - os.ay
  let accel_z := (r.AcZ : ℚ) - os.az
  let gyro_x := (r.GyX : ℚ) - os.gx
  let gyro_y := (r.GyY : ℚ) - os.gy
  let gyro_z := (r.GyZ : ℚ) - os.gz
  let temp := (r.Tmp : ℚ) / 340 + 36.53
  let accel_x_g := accel_x / ACCEL_SCALE_MODIFIER_2G
  let accel_y_g := accel_y / ACCEL_SCALE_MODIFIER_2G
  let accel_z_g := accel_z / ACCEL_SCALE_MODIFIER_2G
  let gyro_x_deg := gyro_x / GYRO_SCALE_MODIFIER_250DEG
  let gyro_y_deg := gyro_y / GYRO_SCALE_MODIFIER_250DEG
  let gyro_z_deg := gyro_z / GYRO_SCALE_MODIFIER_250DEG
  { GyX := v.GyX + gyro_x
  , GyY := v.GyY + gyro_y
  , GyZ := v.GyZ + gyro_z
  , Tmp := v.Tmp + temp
  , AcX := v.AcX + accel_x
  , AcY := v.AcY + accel_y
  , AcZ := v.AcZ + accel_z
  , GyX_deg := v.GyX_deg + gyro_x_deg
  , GyY_deg := v.GyY_deg + gyro_y_deg
  , GyZ_deg := v.GyZ_deg + gyro_z_deg
  , AcX_g := v.AcX_g + accel_x_g
  , AcY_g := v.AcY_g + accel_y_g
  , AcZ_g := v.AcZ_g + accel_z_g }

/-- Model of `get_values(samples)` over the raw sample sequence of the device:
accumulate per iteration, then divide every accumulator by `samples`
(lines 137-139), each division a Python division. -/
def get_values (os : CalOffsets) (rs : List RawSample) : Except String ScaledValues := do
  let v := rs.foldl (get_values_step os) ⟨0, 0, 0, 0, 0, 0, 0, 0, 0, 0, 0, 0, 0⟩
  let samples : ℚ := (rs.length : ℚ)
  let gx ← pydiv v.GyX samples
  let gy ← pydiv v.GyY samples
  let gz ← pydiv v.GyZ samples
  let tm ← pydiv v.Tmp samples
  let acx ← pydiv v.AcX samples
  let acy ← pydiv v.AcY samples
  let acz ← pydiv v.AcZ samples
  let gxd ← pydiv v.GyX_deg samples
  let gyd ← pydiv v.GyY_deg samples
  let gzd ← pydiv v.GyZ_deg samples
  let axg ← pydiv v.AcX_g samples
  let ayg ← pydiv v.AcY_g samples
  let azg ← pydiv v.AcZ_g samples
  pure ⟨gx, gy, gz, tm, acx, acy, acz, gxd, gyd, gzd, axg, ayg, azg⟩

/-- Lines 78-81 of the main loop: when `prev_data` exists, every field of
the current reading is low-pass filtered against it; on the very first
cycle (`prev_data` empty) the reading passes through unmodified. -/
def apply_low_pass (prev : Option ScaledValues) (data : ScaledValues) (alpha : ℚ) : ScaledValues :=
  match prev with
  | none => data
  | some p =>
    { GyX := low_pass_filter data.GyX p.GyX alpha
    , GyY := low_pass_filter data.GyY p.GyY alpha
    , GyZ := low_pass_filter data.GyZ p.GyZ alpha
    , Tmp := low_pass_filter data.Tmp p.Tmp alpha
    , AcX := low_pass_filter data.AcX p.AcX alpha
    , AcY := low_pass_filter data.AcY p.AcY alpha
    , AcZ := low_pass_filter data.AcZ p.AcZ alpha
    , GyX_deg := low_pass_filter data.GyX_deg p.GyX_deg alpha
    , GyY_deg := low_pass_filter data.GyY_deg p.GyY_deg alpha
    , GyZ_deg := low_pass_filter data.GyZ_deg p.GyZ_deg alpha
    , AcX_g := low_pass_filter data.AcX_g p.AcX_g alpha
    , AcY_g := low_pass_filter data.AcY_g p.AcY_g alpha
    , AcZ_g := low_pass_filter data.AcZ_g p.AcZ_g alpha }

/-! ## Orientation estimator (`motion_control.py`, lines 13-15 and 84-96)

The estimator works on the float angles of the scripts; it is modelled over `ℝ`
because it uses `atan2`, `sqrt` and `π`. -/

/-- Complementary filter factor (line 14). -/
def beta : ℝ := 0.95

/-- Python `math.atan2(y, x)` on real arguments. -/
noncomputable def atan2 (y x : ℝ) : ℝ :=
  if x > 0 then Real.arctan (y / x)
  else if x < 0 then
    (if y ≥ 0 then Real.arctan (y / x) + Real.pi else Real.arctan (y / x) - Real.pi)
  else
    (if y > 0 then Real.pi / 2 else if y < 0 then -(Real.pi / 2) else 0)

/-- Line 86: `accel_angle_x = math.atan2(data["AcY_g"], data["AcZ_g"]) * 180 / math.pi`. -/
noncomputable def accel_angle_x (d : ScaledValues) : ℝ :=
  atan2 (d.AcY_g : ℝ) (d.AcZ_g : ℝ) * 180 / Real.pi

/-- Lines 87-88: `accel_angle_y = math.atan2(-AcX_g, sqrt(AcY_g**2 + AcZ_g**2)) * 180 / math.pi`. -/
noncomputable def accel_angle_y (d : ScaledValues) : ℝ :=
  atan2 (-(d.AcX_g : ℝ)) (Real.sqrt ((d.AcY_g : ℝ) ^ 2 + (d.AcZ_g : ℝ) ^ 2)) * 180 / Real.pi

/-- The orientation state `prev_angles` of the loop. -/
structure Angles where
  x : ℝ
  y : ℝ
  z : ℝ

/-- Lines 91-93: complementary blend for X and Y, pure gyro integration
for Z. -/
noncomputable def update_angles (prev : Angles) (d : ScaledValues) (dt : ℝ) : Angles :=
  { x := beta * (prev.x + (d.GyX_deg : ℝ) * dt) + (1 - beta) * accel_angle_x d
  , y := beta * (prev.y + (d.GyY_deg : ℝ) * dt) + (1 - beta) * accel_angle_y d
  , z := prev.z + (d.GyZ_deg : ℝ) * dt }

/-! ## Dead helper `MPU6050.apply_complementary_filter` (`mpu6050.py`, lines 143-157)

The body of the helper is modelled statement by statement with explicit
name resolution, because its behaviour is decided by the Python scoping
rules:
`mpu6050.py` imports only `time` and `machine.I2C`, so the global name
`math` used on its first line does not resolve, and the locals `angle_x`
and `angle_y` are read on the right-hand side of their own first
assignment. -/

/-- The names defined at module level in `mpu6050.py`: its two imports
and the class itself. -/
def mpu6050_module_names : List String := ["time", "I2C", "MPU6050"]

/-- Global name lookup in the module scope of `mpu6050.py`. -/
def resolve_global (n : String) : Except String Unit :=
  if n ∈ mpu6050_module_names then Except.ok ()
  else Except.error ("NameError: name " ++ n ++ " is not defined")

/-- Local variable read: a local not yet assigned raises
`UnboundLocalError`. -/
def local_lookup (env : List (String × ℝ)) (n : String) : Except String ℝ :=
  match env.lookup n with
  | some v => Except.ok v
  | none => Except.error ("UnboundLocalError: " ++ n)

/-- Model of `apply_complementary_filter(self, accel_data, gyro_data, dt, alpha)`,
statement by statement.  Parameters are the locals bound on entry; the
reads the source performs before each assignment are made explicit. -/
noncomputable def apply_complementary_filter
    (acX acY acZ gX gY dt alpha : ℝ) : Except String (ℝ × ℝ) := do
  let env : List (String × ℝ) :=
    [("AcX_g", acX), ("AcY_g", acY), ("AcZ_g", acZ),
     ("GyX_deg", gX), ("GyY_deg", gY), ("dt", dt), ("alpha", alpha)]
  let _ ← resolve_global "math"
  let a_ax := atan2 acY acZ * 180 / Real.pi
  let _ ← resolve_global "math"
  let a_ay := atan2 (-acX) (Real.sqrt (acY ^ 2 + acZ ^ 2)) * 180 / Real.pi
  let angle_x0 ← local_lookup env "angle_x"
  let angle_x := alpha * (angle_x0 + gX * dt) + (1 - alpha) * a_ax
  let angle_y0 ← local_lookup env "angle_y"
  let angle_y := alpha * (angle_y0 + gY * dt) + (1 - alpha) * a_ay
  pure (angle_x, angle_y)

/-! ## Helper lemmas -/

theorem shiftLeft8_or (b0 b1 : Nat) (h : b1 < 256) :
    (b0 <<< 8) ||| b1 = 256 * b0 + b1 := by
  have h2 : b1 < 2 ^ 8 := by norm_num at h ⊢; omega
  calc (b0 <<< 8) ||| b1 = (2 ^ 8 * b0) ||| b1 := by
        rw [Nat.shiftLeft_eq, Nat.mul_comm]
    _ = 2 ^ 8 * b0 + b1 := (Nat.mul_add_lt_is_or h2 b0).symm
    _ = 256 * b0 + b1 := by norm_num

theorem pydiv_ne (a b : ℚ) (h : b ≠ 0) : pydiv a b = Except.ok (a / b) := by
  simp [pydiv, h]

theorem calibrate_foldl (rs : List RawSample) (s : CalSums) :
    rs.foldl calibrate_step s =
      ⟨s.ax + (rs.map fun r => (r.AcX : ℚ)).sum,
       s.ay + (rs.map fun r => (r.AcY : ℚ)).sum,
       s.az + (rs.map fun r => ((r.AcZ : ℚ) - ACCEL_SCALE_MODIFIER_2G)).sum,
       s.gx + (rs.map fun r => (r.GyX : ℚ)).sum,
       s.gy + (rs.map fun r => (r.GyY : ℚ)).sum,
       s.gz + (rs.map fun r => (r.GyZ : ℚ)).sum⟩ := by
  induction rs generalizing s with
  | nil => simp
  | cons r rs ih =>
    simp only [List.foldl_cons, List.map_cons, List.sum_cons, ih, calibrate_step,
      CalSums.mk.injEq]
    refine ⟨by ring, by ring, by ring, by ring, by ring, by ring⟩

theorem sum_map_div (f : RawSample → ℚ) (c : ℚ) (rs : List RawSample) :
    (rs.map fun r => f r / c).sum = (rs.map f).sum / c := by
  induction rs with
  | nil => simp
  | cons r rs ih => simp [ih, add_div]

theorem get_values_foldl (os : CalOffsets) (rs : List RawSample) (v : ScaledValues) :
    rs.foldl (get_values_step os) v =
      ⟨v.GyX + (rs.map fun r => (r.GyX : ℚ) - os.gx).sum,
       v.GyY + (rs.map fun r => (r.GyY : ℚ) - os.gy).sum,
       v.GyZ + (rs.map fun r => (r.GyZ : ℚ) - os.gz).sum,
       v.Tmp + (rs.map fun r => (r.Tmp : ℚ) / 340 + 36.53).sum,
       v.AcX + (rs.map fun r => (r.AcX : ℚ) - os.ax).sum,
       v.AcY + (rs.map fun r => (r.AcY : ℚ) - os.ay).sum,
       v.AcZ + (rs.map fun r => (r.AcZ : ℚ) - os.az).sum,
       v.GyX_deg + (rs.map fun r => ((r.GyX : ℚ) - os.gx) / GYRO_SCALE_MODIFIER_250DEG).sum,
       v.GyY_deg + (rs.map fun r => ((r.GyY : ℚ) - os.gy) / GYRO_SCALE_MODIFIER_250DEG).sum,
       v.GyZ_deg + (rs.map fun r => ((r.GyZ : ℚ) - os.gz) / GYRO_SCALE_MODIFIER_250DEG).sum,
       v.AcX_g + (rs.map fun r => ((r.AcX : ℚ) - os.ax) / ACCEL_SCALE_MODIFIER_2G).sum,
       v.AcY_g + (rs.map fun r => ((r.AcY : ℚ) - os.ay) / ACCEL_SCALE_MODIFIER_2G).sum,
       v.AcZ_g + (rs.map fun r => ((r.AcZ : ℚ) - os.az) / ACCEL_SCALE_MODIFIER_2G).sum⟩ := by
  induction rs generalizing v with
  | nil => simp
  | cons r rs ih =>
    simp only [List.foldl_cons, List.map_cons, List.sum_cons, ih, get_values_step,
      ScaledValues.mk.injEq]
    refine ⟨by ring, by ring, by ring, by ring, by ring, by ring, by ring,
      by ring, by ring, by ring, by ring, by ring, by ring⟩

theorem calibrate_eq (rs : List RawSample) (h : rs ≠ []) :
    calibrate rs = Except.ok
      ⟨(rs.map fun r => (r.AcX : ℚ)).sum / rs.length,
       (rs.map fun r => (r.AcY : ℚ)).sum / rs.length,
       (rs.map fun r => ((r.AcZ : ℚ) - ACCEL_SCALE_MODIFIER_2G)).sum / rs.length,
       (rs.map fun r => (r.GyX : ℚ)).sum / rs.length,
       (rs.map fun r => (r.GyY : ℚ)).sum / rs.length,
       (rs.map fun r => (r.GyZ : ℚ)).sum / rs.length⟩ := by
  have h0 : rs.length ≠ 0 := by
    simpa [List.length_eq_zero] using h
  have hl : ((rs.length : ℚ)) ≠ 0 := by
    exact_mod_cast h0
  simp only [calibrate, calibrate_foldl, zero_add, pydiv_ne _ _ hl]
  rfl

theorem get_values_eq (os : CalOffsets) (rs : List RawSample) (h : rs ≠ []) :
    get_values os rs = Except.ok
      ⟨(rs.map fun r => (r.GyX : ℚ) - os.gx).sum / rs.length,
       (rs.map fun r => (r.GyY : ℚ) - os.gy).sum / rs.length,
       (rs.map fun r => (r.GyZ : ℚ) - os.gz).sum / rs.length,
       (rs.map fun r => (r.Tmp : ℚ) / 340 + 36.53).sum / rs.length,
       (rs.map fun r => (r.AcX : ℚ) - os.ax).sum / rs.length,
       (rs.map fun r => (r.AcY : ℚ) - os.ay).sum / rs.length,
       (rs.map fun r => (r.AcZ : ℚ) - os.az).sum / rs.length,
       (rs.map fun r => ((r.GyX : ℚ) - os.gx) / GYRO_SCALE_MODIFIER_250DEG).sum / rs.length,
       (rs.map fun r => ((r.GyY : ℚ) - os.gy) / GYRO_SCALE_MODIFIER_250DEG).sum / rs.length,
       (rs.map fun r => ((r.GyZ : ℚ) - os.gz) / GYRO_SCALE_MODIFIER_250DEG).sum / rs.length,
       (rs.map fun r => ((r.AcX : ℚ) - os.ax) / ACCEL_SCALE_MODIFIER_2G).sum / rs.length,
       (rs.map fun r => ((r.AcY : ℚ) - os.ay) / ACCEL_SCALE_MODIFIER_2G).sum / rs.length,
       (rs.map fun r => ((r.AcZ : ℚ) - os.az) / ACCEL_SCALE_MODIFIER_2G).sum / rs.length⟩ := by
  have h0 : rs.length ≠ 0 := by
    simpa [List.length_eq_zero] using h
  have hl : ((rs.length : ℚ)) ≠ 0 := by
    exact_mod_cast h0
  simp only [get_values, get_values_foldl, zero_add, pydiv_ne _ _ hl]
  rfl

/-! ## Claim theorems -/

/-- C1 counterexample: a label that differs from the previously stable one
and is then produced by two consecutive classification cycles (here LEFT,
from `angleX = -25`) is NOT displayed: the first differing cycle resets
`direction_count` to 0, the second raises it only to 1, and display
requires `direction_count >= 2`. -/
theorem C1_two_cycle_display_counterexample :
    get_direction (-25) 0 0 = "LEFT" ∧
    debounce_trace initial_state ["LEFT", "LEFT"] = [false, false] := by
  decide

/-- C1 (amended): a new direction label that differs from the previous one
is surfaced exactly when it has been produced by three consecutive
classification cycles (the cycle that introduces it resets the counter,
and display fires once the counter reaches 2); nothing is displayed during
the first two of those cycles, and a single-cycle spike followed by a
different label is never displayed. -/
theorem C1_debounce_requires_three_consecutive_cycles :
    (∀ (st : DebounceState) (d : String), d ≠ st.prev_direction →
      debounce_trace st [d, d, d] = [false, false, true]) ∧
    (∀ (st : DebounceState) (d e : String), d ≠ st.prev_direction → e ≠ d →
      debounce_trace st [d, e] = [false, false]) := by
  constructor
  · intro st d hd
    simp [debounce_trace, debounce_displays, debounce_step, hd]
  · intro st d e hd he
    simp [debounce_trace, debounce_displays, debounce_step, hd, he]

/-- C1 witness: three consecutive LEFT cycles from the loop entry state
display only on the third; a one-cycle ROTATE_RIGHT spike from a stable
STOP state never displays. -/
theorem C1_debounce_requires_three_consecutive_cycles_witness :
    debounce_trace initial_state ["LEFT", "LEFT", "LEFT"] = [false, false, true] ∧
    debounce_trace ⟨"STOP", 5⟩ ["ROTATE_RIGHT", "STOP"] = [false, false] :=
  ⟨C1_debounce_requires_three_consecutive_cycles.1 initial_state "LEFT" (by decide),
   C1_debounce_requires_three_consecutive_cycles.2 ⟨"STOP", 5⟩ "ROTATE_RIGHT" "STOP"
     (by decide) (by decide)⟩

/-- C2: `get_direction` is total — for every angle triple it returns one
of the seven labels — and whenever `|angleZ|` exceeds both `DEAD_ZONE` and
`TURN_THRESHOLD` the result is ROTATE_RIGHT for positive and ROTATE_LEFT
for negative `angleZ`, regardless of `angleX` and `angleY`. -/
theorem C2_classifier_total_and_yaw_priority :
    (∀ x y z : ℚ, get_direction x y z ∈
      ["STOP", "FORWARD", "BACKWARD", "LEFT", "RIGHT", "ROTATE_LEFT", "ROTATE_RIGHT"]) ∧
    (∀ x y z : ℚ, abs z > DEAD_ZONE → abs z > TURN_THRESHOLD →
      get_direction x y z = if z > 0 then "ROTATE_RIGHT" else "ROTATE_LEFT") := by
  constructor
  · intro x y z
    unfold get_direction
    split_ifs <;> simp
  · intro x y z h1 h2
    unfold get_direction
    simp [h1, h2]

/-- C2 witness: `classify(-20, 20, 25) = ROTATE_RIGHT`, not FORWARD or
LEFT. -/
theorem C2_classifier_total_and_yaw_priority_witness :
    get_direction (-20) 20 25 = (if (25 : ℚ) > 0 then "ROTATE_RIGHT" else "ROTATE_LEFT") :=
  C2_classifier_total_and_yaw_priority.2 (-20) 20 25 (by decide) (by decide)

/-- C3: the combination step of `read_raw_data` is a bijection from
two-byte big-endian pairs onto `[-32768, 32767]`: every byte pair decodes
into that range and re-encodes to itself, every in-range value encodes to
a byte pair that decodes back to it, and `0xFF,0xFF`, `0x7F,0xFF`,
`0x80,0x00` decode to `-1`, `32767`, `-32768`. -/
theorem C3_raw_decode_bijection :
    (∀ b0 b1 : Nat, b0 < 256 → b1 < 256 →
      (-32768 ≤ read_raw_combine b0 b1 ∧ read_raw_combine b0 b1 ≤ 32767) ∧
      encode16 (read_raw_combine b0 b1) = (b0, b1)) ∧
    (∀ v : Int, -32768 ≤ v → v ≤ 32767 →
      read_raw_combine (encode16 v).1 (encode16 v).2 = v) ∧
    (read_raw_combine 255 255 = -1 ∧ read_raw_combine 127 255 = 32767 ∧
      read_raw_combine 128 0 = -32768) := by
  refine ⟨?_, ?_, by decide, by decide, by decide⟩
  · intro b0 b1 hb0 hb1
    have hco := shiftLeft8_or b0 b1 hb1
    simp only [read_raw_combine, encode16, hco]
    split_ifs with hgt
    · refine ⟨⟨by omega, by omega⟩, ?_⟩
      simp only [Prod.mk.injEq]
      constructor <;> omega
    · refine ⟨⟨by omega, by omega⟩, ?_⟩
      simp only [Prod.mk.injEq]
      constructor <;> omega
  · intro v h1 h2
    have hlt : ((v % 65536).toNat) % 256 < 256 := by omega
    simp only [read_raw_combine, encode16]
    rw [shiftLeft8_or _ _ hlt]
    split_ifs with hgt <;> omega

/-- C3 witness: round trips at the concrete pairs `0x80,0x00` and `-1`. -/
theorem C3_raw_decode_bijection_witness :
    encode16 (read_raw_combine 128 0) = (128, 0) ∧
    read_raw_combine (encode16 (-1)).1 (encode16 (-1)).2 = -1 :=
  ⟨(C3_raw_decode_bijection.1 128 0 (by decide) (by decide)).2,
   C3_raw_decode_bijection.2.1 (-1) (by decide) (by decide)⟩

/-- C4: one orientation update computes
`newX = β*(prevX + GyX_deg*dt) + (1-β)*(atan2(AcY_g, AcZ_g)*180/π)`,
`newY = β*(prevY + GyY_deg*dt) + (1-β)*(atan2(-AcX_g, sqrt(AcY_g² + AcZ_g²))*180/π)`
with `β = 0.95`, and `newZ = prevZ + GyZ_deg*dt` with no accelerometer
correction; with `dt = 0` the X and Y angles are exactly
`β*previousAngle + (1-β)*tiltAngle` and Z is unchanged. -/
theorem C4_orientation_update_formula :
    ∀ (prev : Angles) (d : ScaledValues) (dt : ℝ),
      ((update_angles prev d dt).x =
        beta * (prev.x + (d.GyX_deg : ℝ) * dt) +
          (1 - beta) * (atan2 (d.AcY_g : ℝ) (d.AcZ_g : ℝ) * 180 / Real.pi) ∧
       (update_angles prev d dt).y =
        beta * (prev.y + (d.GyY_deg : ℝ) * dt) +
          (1 - beta) * (atan2 (-(d.AcX_g : ℝ))
            (Real.sqrt ((d.AcY_g : ℝ) ^ 2 + (d.AcZ_g : ℝ) ^ 2)) * 180 / Real.pi) ∧
       (update_angles prev d dt).z = prev.z + (d.GyZ_deg : ℝ) * dt) ∧
      ((update_angles prev d 0).x = beta * prev.x + (1 - beta) * accel_angle_x d ∧
       (update_angles prev d 0).y = beta * prev.y + (1 - beta) * accel_angle_y d ∧
       (update_angles prev d 0).z = prev.z) := by
  intro prev d dt
  refine ⟨⟨rfl, rfl, rfl⟩, ?_, ?_, ?_⟩ <;>
    simp [update_angles, accel_angle_x, accel_angle_y]

/-- C5: `calibrate` sets each offset to the arithmetic mean of the raw
samples of that axis, with `16384` subtracted from each accelerometer-Z sample
before summing; in particular `sampleCount` identical readings of value
`v` yield offset exactly `v` (and `v - 16384` for accel-Z) for every
`sampleCount ≥ 1`. -/
theorem C5_calibrate_offsets_mean :
    (∀ rs : List RawSample, rs ≠ [] →
      calibrate rs = Except.ok
        ⟨(rs.map fun r => (r.AcX : ℚ)).sum / rs.length,
         (rs.map fun r => (r.AcY : ℚ)).sum / rs.length,
         (rs.map fun r => ((r.AcZ : ℚ) - ACCEL_SCALE_MODIFIER_2G)).sum / rs.length,
         (rs.map fun r => (r.GyX : ℚ)).sum / rs.length,
         (rs.map fun r => (r.GyY : ℚ)).sum / rs.length,
         (rs.map fun r => (r.GyZ : ℚ)).sum / rs.length⟩) ∧
    (∀ (n : ℕ) (v : RawSample), 1 ≤ n →
      calibrate (List.replicate n v) = Except.ok
        ⟨(v.AcX : ℚ), (v.AcY : ℚ), (v.AcZ : ℚ) - ACCEL_SCALE_MODIFIER_2G,
         (v.GyX : ℚ), (v.GyY : ℚ), (v.GyZ : ℚ)⟩) := by
  constructor
  · exact calibrate_eq
  · intro n v hn
    have hne : List.replicate n v ≠ [] := by
      simp only [Ne, List.replicate_eq_nil_iff]
      omega
    have hq : ((n : ℚ)) ≠ 0 := Nat.cast_ne_zero.mpr (by omega)
    rw [calibrate_eq _ hne]
    simp [List.map_replicate, List.sum_replicate, List.length_replicate, nsmul_eq_mul,
      mul_div_cancel_left₀ _ hq]

/-- C5 witness: two identical readings yield the reading itself as offsets,
with gravity removed from accel-Z. -/
theorem C5_calibrate_offsets_mean_witness :
    calibrate (List.replicate 2 ⟨100, -50, 16500, 7, -3, 9, 680⟩) = Except.ok
      ⟨((100 : Int) : ℚ), ((-50 : Int) : ℚ), ((16500 : Int) : ℚ) - ACCEL_SCALE_MODIFIER_2G,
       ((7 : Int) : ℚ), ((-3 : Int) : ℚ), ((9 : Int) : ℚ)⟩ :=
  C5_calibrate_offsets_mean.2 2 ⟨100, -50, 16500, 7, -3, 9, 680⟩ (by decide)

/-- C6: classifier threshold comparisons are strict — an angle exactly at
a threshold does not trigger the corresponding label: `(0, 15, 0)`,
`(0, -15, 0)`, `(15, 0, 0)`, `(-15, 0, 0)`, `(0, 0, 20)` and
`(0, 0, -20)` all yield STOP, and `|angleZ| = 20` leaves the result of a
prior rule (LEFT, FORWARD) in place. -/
theorem C6_threshold_boundaries_strict :
    get_direction 0 15 0 = "STOP" ∧ get_direction 0 (-15) 0 = "STOP" ∧
    get_direction 15 0 0 = "STOP" ∧ get_direction (-15) 0 0 = "STOP" ∧
    get_direction 0 0 20 = "STOP" ∧ get_direction 0 0 (-20) = "STOP" ∧
    get_direction (-25) 0 20 = "LEFT" ∧ get_direction 0 20 (-20) = "FORWARD" := by
  decide

/-- C7: `low_pass_filter(current, previous, alpha)` equals
`alpha * previous + (1 - alpha) * current` for all inputs, returns the
current value at `alpha = 0` and the previous value at `alpha = 1`, and
the main loop applies no filtering on the first cycle (no previous data
exists, so the reading passes through unmodified). -/
theorem C7_low_pass_filter_properties :
    (∀ c p a : ℚ, low_pass_filter c p a = a * p + (1 - a) * c) ∧
    (∀ c p : ℚ, low_pass_filter c p 0 = c ∧ low_pass_filter c p 1 = p) ∧
    (∀ (d : ScaledValues) (a : ℚ), apply_low_pass none d a = d) := by
  refine ⟨fun c p a => rfl, fun c p => ⟨?_, ?_⟩, fun d a => rfl⟩ <;>
    simp [low_pass_filter]

/-- C9: the dead helper `MPU6050.apply_complementary_filter` never returns
a result: for every input its first statement already fails to resolve the
global name `math` (not imported in `mpu6050.py`), so it raises a
name-resolution error before completing; the reads of `angle_x` and
`angle_y` on the right-hand side of their own first assignment are
likewise modelled as unbound-local reads. -/
theorem C9_dead_helper_always_name_error :
    ∀ acX acY acZ gX gY dt alpha : ℝ,
      apply_complementary_filter acX acY acZ gX gY dt alpha =
        Except.error "NameError: name math is not defined" := by
  intro acX acY acZ gX gY dt alpha
  rfl

/-- C10: with `samples = 0` the sampling loop runs zero times and the
first averaging division divides by zero, so both `calibrate` and
`get_values` raise a division-by-zero error instead of returning; the
error occurs before any offset is assigned, so no partial offsets escape. -/
theorem C10_zero_samples_division_error :
    calibrate [] = Except.error "ZeroDivisionError" ∧
    ∀ os : CalOffsets, get_values os [] = Except.error "ZeroDivisionError" :=
  ⟨rfl, fun _ => rfl⟩

/-- C8: for a nonempty sample list, `get_values` returns each raw-unit
field as the mean of the offset-corrected raw samples, each scaled field
as that same mean divided by the full-scale modifier, and `Tmp` as the
mean over samples of `rawTemp / 340 + 36.53`. -/
theorem C8_get_values_means :
    ∀ (os : CalOffsets) (rs : List RawSample), rs ≠ [] →
      get_values os rs = Except.ok
        ⟨(rs.map fun r => (r.GyX : ℚ) - os.gx).sum / rs.length,
         (rs.map fun r => (r.GyY : ℚ) - os.gy).sum / rs.length,
         (rs.map fun r => (r.GyZ : ℚ) - os.gz).sum / rs.length,
         (rs.map fun r => (r.Tmp : ℚ) / 340 + 36.53).sum / rs.length,
         (rs.map fun r => (r.AcX : ℚ) - os.ax).sum / rs.length,
         (rs.map fun r => (r.AcY : ℚ) - os.ay).sum / rs.length,
         (rs.map fun r => (r.AcZ : ℚ) - os.az).sum / rs.length,
         ((rs.map fun r => (r.GyX : ℚ) - os.gx).sum / rs.length) / GYRO_SCALE_MODIFIER_250DEG,
         ((rs.map fun r => (r.GyY : ℚ) - os.gy).sum / rs.length) / GYRO_SCALE_MODIFIER_250DEG,
         ((rs.map fun r => (r.GyZ : ℚ) - os.gz).sum / rs.length) / GYRO_SCALE_MODIFIER_250DEG,
         ((rs.map fun r => (r.AcX : ℚ) - os.ax).sum / rs.length) / ACCEL_SCALE_MODIFIER_2G,
         ((rs.map fun r => (r.AcY : ℚ) - os.ay).sum / rs.length) / ACCEL_SCALE_MODIFIER_2G,
         ((rs.map fun r => (r.AcZ : ℚ) - os.az).sum / rs.length) / ACCEL_SCALE_MODIFIER_2G⟩ := by
  intro os rs h
  rw [get_values_eq os rs h]
  refine congrArg Except.ok ?_
  simp only [ScaledValues.mk.injEq, true_and]
  refine ⟨?_, ?_, ?_, ?_, ?_, ?_⟩ <;>
    (rw [sum_map_div]; ring)

/-- C8 witness: one sample with offsets `(1,2,3,4,5,6)` produces the
corrected means and their scaled counterparts. -/
theorem C8_get_values_means_witness :
    get_values ⟨1, 2, 3, 4, 5, 6⟩ [⟨100, -50, 16500, 7, -3, 9, 680⟩] = Except.ok
      ⟨3, -8, 3, 38.53, 99, -52, 16497, 3 / 131, -8 / 131, 3 / 131,
       99 / 16384, -52 / 16384, 16497 / 16384⟩ := by
  rw [C8_get_values_means ⟨1, 2, 3, 4, 5, 6⟩ [⟨100, -50, 16500, 7, -3, 9, 680⟩] (by decide)]
  norm_num [ACCEL_SCALE_MODIFIER_2G, GYRO_SCALE_MODIFIER_250DEG]
